import Mathlib

/-!
Verification of the graduation-ceremony access-control and task-orchestration
subsystem: a shallow embedding of the access verifier (main.py api_verify),
the job manager (job_manager.py), the full-process pipeline handler, the
batch QR generator (batch_qr_generator.py), the email delivery queue
(email_queue.py) and companion-credential regeneration
(generate_companion_qr.py), together with theorems settling the stated
behavioural claims.
-/

namespace MainApi

/-- One row of the companions table joined with the owning student, as
selected by api_verify: c.id, c.companion_number, c.access_status,
c.checked_in_at, s.first_name, s.last_name. Timestamps are modelled as
natural numbers. -/
structure CompanionRow where
  rid : Nat
  student_id : Nat
  companion_number : Nat
  qr_data : String
  access_status : String
  checked_in_at : Option Nat
  first_name : String
  last_name : String
  deriving DecidableEq, Repr

/-- One row of the students table as selected by api_verify:
id, first_name, last_name, access_status, checked_in_at, qr_data.
qr_data is nullable in the schema. -/
structure StudentRow where
  rid : Nat
  first_name : String
  last_name : String
  access_status : String
  checked_in_at : Option Nat
  qr_data : Option String
  deriving DecidableEq, Repr

/-- The relational store visible to the verifier: the companions table and
the students table. -/
structure DB where
  companions : List CompanionRow
  students : List StudentRow
  deriving DecidableEq, Repr

def companionAlreadyMsg (c : CompanionRow) : String :=
  "Acompañante #" ++ toString c.companion_number ++ " ya registrado"

def companionDeniedMsg : String := "Acceso Denegado para Acompañante"

def companionWelcomeMsg (c : CompanionRow) : String :=
  "Bienvenido Acompañante #" ++ toString c.companion_number ++ " de " ++
    c.first_name ++ " " ++ c.last_name

def studentAlreadyMsg : String := "Ya registrado (código de graduando)"

def studentDeniedMsg : String := "Acceso Denegado"

def studentWelcomeMsg (s : StudentRow) : String :=
  "Bienvenido graduando " ++ s.first_name ++ " " ++ s.last_name

def invalidMsg : String := "Código QR Inválido"

/-- The JSON outcome of /api/verify, one constructor per return site of
api_verify, carrying the row echoed in the response and the message. -/
inductive ScanResult where
  | missingQr
  | invalidCode (message : String)
  | companionAlready (c : CompanionRow) (message : String)
  | companionDenied (c : CompanionRow) (message : String)
  | companionWelcome (c : CompanionRow) (message : String)
  | studentAlready (s : StudentRow) (message : String)
  | studentDenied (s : StudentRow) (message : String)
  | studentWelcome (s : StudentRow) (message : String)
  deriving DecidableEq, Repr

/-- SELECT ... FROM companions c JOIN students s ... WHERE c.qr_data = %s,
then fetchone: the first matching row. -/
def findCompanion (db : DB) (qr : String) : Option CompanionRow :=
  db.companions.find? (fun c => c.qr_data == qr)

/-- SELECT ... FROM students WHERE qr_data = %s, then fetchone. -/
def findStudent (db : DB) (qr : String) : Option StudentRow :=
  db.students.find? (fun s => s.qr_data == some qr)

/-- UPDATE companions SET access_status = checked_in, checked_in_at = now
WHERE id = cid. -/
def checkinCompanions (l : List CompanionRow) (now cid : Nat) : List CompanionRow :=
  l.map (fun r =>
    if r.rid = cid then
      { r with access_status := "checked_in", checked_in_at := some now }
    else r)

/-- UPDATE students SET access_status = checked_in, checked_in_at = now
WHERE id = sid. -/
def checkinStudents (l : List StudentRow) (now sid : Nat) : List StudentRow :=
  l.map (fun r =>
    if r.rid = sid then
      { r with access_status := "checked_in", checked_in_at := some now }
    else r)

/-- The companion branch of api_verify. -/
def checkCompanion (db : DB) (now : Nat) (c : CompanionRow) : ScanResult × DB :=
  if c.access_status == "checked_in" then
    (.companionAlready c (companionAlreadyMsg c), db)
  else if c.access_status == "denied" then
    (.companionDenied c companionDeniedMsg, db)
  else
    (.companionWelcome
        { c with access_status := "checked_in", checked_in_at := some now }
        (companionWelcomeMsg c),
      { db with companions := checkinCompanions db.companions now c.rid })

/-- The student (legacy) branch of api_verify. -/
def checkStudent (db : DB) (now : Nat) (s : StudentRow) : ScanResult × DB :=
  if s.access_status == "checked_in" then
    (.studentAlready s studentAlreadyMsg, db)
  else if s.access_status == "denied" then
    (.studentDenied s studentDeniedMsg, db)
  else
    (.studentWelcome
        { s with access_status := "checked_in", checked_in_at := some now }
        (studentWelcomeMsg s),
      { db with students := checkinStudents db.students now s.rid })

/-- The body of api_verify once a (truthy) token is present: companion
lookup first, then student lookup. -/
def verifyToken (db : DB) (now : Nat) (qr : String) : ScanResult × DB :=
  match findCompanion db qr with
  | some c => checkCompanion db now c
  | none =>
    match findStudent db qr with
    | none => (.invalidCode invalidMsg, db)
    | some s => checkStudent db now s

/-- POST /api/verify. A missing or empty (falsy) qr_data field is rejected
with a 400 before any lookup. -/
def api_verify (db : DB) (now : Nat) (qr_data : Option String) : ScanResult × DB :=
  match qr_data with
  | none => (.missingQr, db)
  | some qr => if qr = "" then (.missingQr, db) else verifyToken db now qr

end MainApi

namespace MainApi

/-!
Interleaving model for concurrent /api/verify requests. Each request issues
two database accesses: first the SELECT lookups (a pure read), then, on the
pending branch, a separate unconditional UPDATE. Each SQL statement is
atomic at the store, but nothing in api_verify makes the read-then-write
pair atomic: another request may run between them. A scan is therefore
modelled as two atomic micro-steps over the shared DB.
-/

/-- The control state of one in-flight api_verify request: before the
SELECTs, after the SELECTs (holding the rows it fetched), or finished. -/
inductive ScanStage where
  | ready
  | haveRead (co : Option CompanionRow) (st : Option StudentRow)
  | finished (r : ScanResult)
  deriving DecidableEq, Repr

/-- Run one micro-step of a scan: the read step executes both SELECTs; the
second step makes the decision on the rows read earlier and, on the
checkable branch, performs the UPDATE. -/
def scanStep (now : Nat) (qr : String) (db : DB) (s : ScanStage) : DB × ScanStage :=
  match s with
  | .ready => (db, .haveRead (findCompanion db qr) (findStudent db qr))
  | .haveRead co st =>
    match co with
    | some c =>
      if c.access_status == "checked_in" then
        (db, .finished (.companionAlready c (companionAlreadyMsg c)))
      else if c.access_status == "denied" then
        (db, .finished (.companionDenied c companionDeniedMsg))
      else
        ({ db with companions := checkinCompanions db.companions now c.rid },
         .finished (.companionWelcome
            { c with access_status := "checked_in", checked_in_at := some now }
            (companionWelcomeMsg c)))
    | none =>
      match st with
      | none => (db, .finished (.invalidCode invalidMsg))
      | some srow =>
        if srow.access_status == "checked_in" then
          (db, .finished (.studentAlready srow studentAlreadyMsg))
        else if srow.access_status == "denied" then
          (db, .finished (.studentDenied srow studentDeniedMsg))
        else
          ({ db with students := checkinStudents db.students now srow.rid },
           .finished (.studentWelcome
              { srow with access_status := "checked_in", checked_in_at := some now }
              (studentWelcomeMsg srow)))
  | .finished r => (db, .finished r)

/-- Two concurrent scans of the same token over one shared store. -/
structure TwoScans where
  db : DB
  first : ScanStage
  second : ScanStage
  deriving DecidableEq, Repr

/-- Advance the scan selected by the scheduler by one micro-step. -/
def stepOne (now : Nat) (qr : String) (t : TwoScans) (pickFirst : Bool) : TwoScans :=
  if pickFirst then
    let (db2, s2) := scanStep now qr t.db t.first
    { t with db := db2, first := s2 }
  else
    let (db2, s2) := scanStep now qr t.db t.second
    { t with db := db2, second := s2 }

/-- Run a schedule: each entry picks which of the two scans moves next. -/
def runSched (now : Nat) (qr : String) (sched : List Bool) (t : TwoScans) : TwoScans :=
  sched.foldl (stepOne now qr) t

/-- Count how many of the two scans finished with a companion welcome
outcome. -/
def welcomeCount (t : TwoScans) : Nat :=
  (match t.first with
   | .finished (.companionWelcome _ _) => 1
   | .finished (.studentWelcome _ _) => 1
   | _ => 0) +
  (match t.second with
   | .finished (.companionWelcome _ _) => 1
   | .finished (.studentWelcome _ _) => 1
   | _ => 0)

/-- A single pending companion credential, used as the concrete store for
the concurrency counterexample. -/
def raceRow : CompanionRow :=
  { rid := 1, student_id := 7, companion_number := 1, qr_data := "companion_tok",
    access_status := "pending", checked_in_at := none,
    first_name := "Ana", last_name := "Pérez" }

/-- Store holding just that credential. -/
def raceDB : DB := { companions := [raceRow], students := [] }

/-- Both scans start before either has read. -/
def raceInit : TwoScans := { db := raceDB, first := .ready, second := .ready }

/-- The read-read-write-write interleaving of two scans of the same token. -/
def raceFinal : TwoScans :=
  runSched 5 "companion_tok" [true, false, true, false] raceInit

end MainApi

namespace JobMgr

/-- Job status, mirroring the JobStatus enum of job_manager.py. -/
inductive JobStatus where
  | pending
  | running
  | completed
  | failed
  | cancelled
  deriving DecidableEq, Repr

/-- The state of the JobManager: the active_jobs table (job id to status),
the ids whose _execute_job task has been created by start_job but has not
begun running yet, and the ids whose task is currently between its RUNNING
assignment and its terminal assignment. -/
structure JMState where
  jobs : List (Nat × JobStatus)
  scheduled : List Nat
  inflight : List Nat
  deriving DecidableEq, Repr

def JMState.initial : JMState := { jobs := [], scheduled := [], inflight := [] }

def lookupJob (st : JMState) (j : Nat) : Option JobStatus :=
  (st.jobs.find? (fun p => p.1 == j)).map (·.2)

def setStatus (jobs : List (Nat × JobStatus)) (j : Nat) (s : JobStatus) :
    List (Nat × JobStatus) :=
  jobs.map (fun p => if p.1 = j then (p.1, s) else p)

/-- JobManager.create_job: allocates the job in PENDING. -/
def create_job (st : JMState) (j : Nat) : JMState :=
  { st with jobs := st.jobs ++ [(j, .pending)] }

/-- JobManager.start_job: returns false if the job is missing or not
PENDING; otherwise creates the _execute_job task (the status itself is not
changed here) and returns true. -/
def start_job (st : JMState) (j : Nat) : Bool × JMState :=
  match lookupJob st j with
  | none => (false, st)
  | some s =>
    if s = .pending then (true, { st with scheduled := st.scheduled ++ [j] })
    else (false, st)

/-- The head of JobManager._execute_job: the task begins running and sets
status to RUNNING without re-checking the current status. -/
def begin_execute (st : JMState) (j : Nat) : JMState :=
  { st with
      scheduled := st.scheduled.erase j,
      inflight := st.inflight ++ [j],
      jobs := setStatus st.jobs j .running }

/-- The tail of JobManager._execute_job: on handler return the status is set
to COMPLETED, on handler exception to FAILED. -/
def end_execute (st : JMState) (j : Nat) (ok : Bool) : JMState :=
  { st with
      inflight := st.inflight.erase j,
      jobs := setStatus st.jobs j (if ok then .completed else .failed) }

/-- JobManager.cancel_job: returns true and sets CANCELLED only when the job
exists and is still PENDING; otherwise returns false and changes nothing. -/
def cancel_job (st : JMState) (j : Nat) : Bool × JMState :=
  match lookupJob st j with
  | none => (false, st)
  | some s =>
    if s = .pending then (true, { st with jobs := setStatus st.jobs j .cancelled })
    else (false, st)

/-- Atomic events of the job manager: API calls plus the two halves of a
scheduled _execute_job task. -/
inductive JMEvent where
  | create (j : Nat)
  | start (j : Nat)
  | beginExec (j : Nat)
  | endExec (j : Nat) (ok : Bool)
  | cancel (j : Nat)
  deriving DecidableEq, Repr

/-- One event step. beginExec fires only for a task that start_job actually
created; endExec only for a task that began. create is a no-op on an id
already present (ids are fresh uuids in the source). -/
def stepJM (st : JMState) (e : JMEvent) : JMState :=
  match e with
  | .create j => if (lookupJob st j).isNone then create_job st j else st
  | .start j => (start_job st j).2
  | .beginExec j => if j ∈ st.scheduled then begin_execute st j else st
  | .endExec j ok => if j ∈ st.inflight then end_execute st j ok else st
  | .cancel j => (cancel_job st j).2

/-- Run a sequence of events from the empty manager. -/
def runJM (es : List JMEvent) : JMState :=
  es.foldl stepJM JMState.initial

end JobMgr

namespace FullProc

/-- The dict returned by a pipeline step that returned normally: its
success flag, optional error string and an abstract payload. -/
structure StepRet where
  success : Bool
  error : Option String
  data : Nat
  deriving DecidableEq, Repr

/-- Behaviour of one awaited pipeline step: it either raised an exception
with a message, or returned a result dict. -/
inductive StepBeh where
  | raised (msg : String)
  | ret (r : StepRet)
  deriving DecidableEq, Repr

/-- The three steps of _handle_full_process, in source order. -/
inductive StepName where
  | syncStep
  | generateStep
  | sendStep
  deriving DecidableEq, Repr

/-- The handler-local results dict: the keys assigned by
_handle_full_process (absent key modelled as none). -/
structure FPResults where
  syncRes : Option StepRet
  qrRes : Option StepRet
  emailRes : Option StepRet
  errMsg : Option String
  summaryOk : Bool
  deriving DecidableEq, Repr

def emptyResults : FPResults :=
  { syncRes := none, qrRes := none, emailRes := none, errMsg := none,
    summaryOk := false }

/-- Python str() of an optional error value inside an f-string: None prints
as the string None. -/
def errString (o : Option String) : String :=
  match o with
  | none => "None"
  | some s => s

/-- JobManager._handle_full_process: runs sync, then QR generation, then
email sending. A step that raises, or returns success false, sends control
to the except block, which stores the message under the error key of the
local results dict and re-raises; later steps are not executed. Returns
the list of steps that were invoked, the final handler-local results dict,
and the handler outcome (normal return value or raised message). -/
def handle_full_process (bSync bGen bSend : StepBeh) :
    List StepName × FPResults × Except String FPResults :=
  match bSync with
  | .raised m =>
    ([.syncStep], { emptyResults with errMsg := some m }, .error m)
  | .ret rs =>
    let res1 : FPResults := { emptyResults with syncRes := some rs }
    if rs.success = false then
      let m := "Sync failed: " ++ errString rs.error
      ([.syncStep], { res1 with errMsg := some m }, .error m)
    else
      match bGen with
      | .raised m =>
        ([.syncStep, .generateStep], { res1 with errMsg := some m }, .error m)
      | .ret rq =>
        let res2 := { res1 with qrRes := some rq }
        if rq.success = false then
          let m := "QR generation failed: " ++ errString rq.error
          ([.syncStep, .generateStep], { res2 with errMsg := some m }, .error m)
        else
          match bSend with
          | .raised m =>
            ([.syncStep, .generateStep, .sendStep],
             { res2 with errMsg := some m }, .error m)
          | .ret re =>
            let res3 := { res2 with emailRes := some re }
            if re.success = false then
              let m := "Email sending failed: " ++ errString re.error
              ([.syncStep, .generateStep, .sendStep],
               { res3 with errMsg := some m }, .error m)
            else
              let res4 := { res3 with summaryOk := true }
              ([.syncStep, .generateStep, .sendStep], res4, .ok res4)

/-- The job fields assigned by JobManager._execute_job once the handler
finished: status, result payload, error message. -/
structure JobOutcome where
  status : JobMgr.JobStatus
  result : Option FPResults
  error_message : Option String
  deriving DecidableEq, Repr

/-- JobManager._execute_job around the full-process handler: on normal
return the job is COMPLETED and job.result is set to the handler result;
on exception the job is FAILED with the message captured — job.result is
not assigned on this path and keeps its initial None. -/
def execute_full_process (bSync bGen bSend : StepBeh) : JobOutcome :=
  match (handle_full_process bSync bGen bSend).2.2 with
  | .ok r => { status := .completed, result := some r, error_message := none }
  | .error m => { status := .failed, result := none, error_message := some m }

end FullProc

namespace BatchQR

/-- The columns of a student row that batch QR generation reads or writes. -/
structure StudentRec where
  sid : Nat
  payment_confirmed : Bool
  qr_data : Option Nat
  qr_image_b64 : Option Nat
  deriving DecidableEq, Repr

/-- The WHERE clause of the eligibility query of generate_missing_qrs_batch:
payment_confirmed = TRUE AND (qr_data IS NULL OR qr_image_b64 IS NULL). -/
def eligible (s : StudentRec) : Bool :=
  s.payment_confirmed && (s.qr_data.isNone || s.qr_image_b64.isNone)

/-- One generated credential: the dict produced by generate_single_qr
(student id, fresh token, image folded into the token, timestamp). -/
structure QRRec where
  student_id : Nat
  qr_data : Nat
  qr_generated_at : Nat
  deriving DecidableEq, Repr

/-- The chunking loop of generate_batch_async: for i in range(0, n, bs),
students i to i+bs. chunksGo carries the list length as structural fuel;
bs = 0 is rejected (Python range would raise). -/
def chunksGo (bs : Nat) : Nat → List StudentRec → List (List StudentRec)
  | 0, _ => []
  | _ + 1, [] => []
  | fuel + 1, x :: xs =>
    (x :: xs).take bs :: chunksGo bs fuel ((x :: xs).drop bs)

def chunksOf (bs : Nat) (l : List StudentRec) : List (List StudentRec) :=
  if bs = 0 then [] else chunksGo bs l.length l

/-- BatchQRGenerator.generate_batch_async: processes the students chunk by
chunk; within a chunk every unit is generated (genOne returns none on a
unit failure, which is filtered out) and the surviving results of every
chunk are accumulated into one list. No database access happens here. -/
def generate_batch_async (bs : Nat) (genOne : StudentRec → Option QRRec)
    (students : List StudentRec) : List QRRec :=
  ((chunksOf bs students).map (fun chunk => chunk.filterMap genOne)).flatten

/-- A store write issued by the generator: one bulk update transaction
covering the given generated records. -/
inductive WriteOp where
  | bulkWrite (recs : List QRRec)
  deriving DecidableEq, Repr

/-- BatchQRGenerator.bulk_update_database: returns immediately on an empty
list, otherwise performs the per-row updates and one commit — a single
bulk write operation. -/
def bulk_update_database (l : List QRRec) : List WriteOp :=
  if l.isEmpty then [] else [.bulkWrite l]

/-- The result dict of generate_missing_qrs_batch. total_students is an
Option because the early-return dict does not contain that key. -/
structure GenResult where
  success : Bool
  generated_count : Nat
  total_students : Option Nat
  error : Option String
  deriving DecidableEq, Repr

/-- BatchQRGenerator.generate_missing_qrs_batch: selects the eligible
students; when none, returns success with generated_count 0 (and no
total_students key) without touching the store; otherwise generates all
chunks and then issues the bulk update once, over the accumulated list.
Returns the list of store writes performed and the result dict. -/
def generate_missing_qrs_batch (bs : Nat) (genOne : StudentRec → Option QRRec)
    (table : List StudentRec) : List WriteOp × GenResult :=
  let students := table.filter eligible
  if students.isEmpty then
    ([], { success := true, generated_count := 0, total_students := none,
           error := none })
  else
    let l := generate_batch_async bs genOne students
    (bulk_update_database l,
     { success := true, generated_count := l.length,
       total_students := some students.length, error := none })

end BatchQR

namespace EmailQ

/-- Observable events of the email queue, in the order they occur:
an SMTP send attempt for a student with its outcome, the qr_sent_at
database write recorded after a successful send, a push of the job onto
the failed queue, and a permanent drop at the retry ceiling. -/
inductive Ev where
  | sendAttempt (sid : Nat) (ok : Bool)
  | recordSent (sid : Nat)
  | requeue (sid : Nat)
  | dropJob (sid : Nat)
  deriving DecidableEq, Repr

/-- The state of one EmailQueue run. Jobs are shared mutable objects keyed
by student id: retries maps a student id to the current retry_count of its
job object, and failed_queue holds ids (so that the same object requeued
twice is visible as two aliased entries). qr_sent_at is the students table
column. -/
structure QState where
  retries : List (Nat × Nat)
  max_retries : Nat
  failed_queue : List Nat
  qr_sent_at : List (Nat × Option Nat)
  sent_count : Nat
  failed_count : Nat
  trace : List Ev
  now : Nat
  deriving DecidableEq, Repr

/-- Read the retry counter of the job object for a student id. -/
def lookupR (l : List (Nat × Nat)) (sid : Nat) : Nat :=
  ((l.find? (fun p => p.1 == sid)).map (·.2)).getD 0

/-- Write the retry counter of the job object for a student id. -/
def setR (l : List (Nat × Nat)) (sid n : Nat) : List (Nat × Nat) :=
  l.map (fun p => if p.1 = sid then (p.1, n) else p)

/-- Whether a job object for the student id exists. -/
def hasR (l : List (Nat × Nat)) (sid : Nat) : Bool :=
  l.any (fun p => p.1 == sid)

def getRetry (st : QState) (sid : Nat) : Nat :=
  lookupR st.retries sid

def setRetry (st : QState) (sid n : Nat) : QState :=
  { st with retries := setR st.retries sid n }

def hasJob (st : QState) (sid : Nat) : Bool :=
  hasR st.retries sid

def getSentAt (st : QState) (sid : Nat) : Option Nat :=
  (((st.qr_sent_at).find? (fun p => p.1 == sid)).map (·.2)).getD none

/-- UPDATE students SET qr_sent_at = now WHERE id = sid (the row is created
here if the model store lacks it). -/
def setSentAt (st : QState) (sid : Nat) : QState :=
  if (st.qr_sent_at).any (fun p => p.1 == sid) then
    { st with qr_sent_at :=
        st.qr_sent_at.map (fun p => if p.1 = sid then (p.1, some st.now) else p) }
  else
    { st with qr_sent_at := st.qr_sent_at ++ [(sid, some st.now)] }

/-- EmailQueue._send_single_email: build the message, call sendmail, and
only on sendmail success write qr_sent_at and bump sent_count; any
exception is caught and reported as a false return. -/
def send_single_email (st : QState) (sid : Nat) (ok : Bool) : Bool × QState :=
  if ok then
    let st1 := { st with trace := st.trace ++ [.sendAttempt sid true] }
    let st2 := setSentAt st1 sid
    (true, { st2 with trace := st2.trace ++ [.recordSent sid],
                      sent_count := st2.sent_count + 1 })
  else
    (false, { st with trace := st.trace ++ [.sendAttempt sid false] })

/-- The failure bookkeeping shared by the loop body and the except block of
EmailQueue._process_batch: retry_count += 1, then requeue while strictly
under max_retries, else count the job as permanently failed. -/
def handle_failure (st : QState) (sid : Nat) : QState :=
  let r := getRetry st sid + 1
  let st1 := setRetry st sid r
  if r < st1.max_retries then
    { st1 with failed_queue := st1.failed_queue ++ [sid],
               trace := st1.trace ++ [.requeue sid] }
  else
    { st1 with failed_count := st1.failed_count + 1,
               trace := st1.trace ++ [.dropJob sid] }

/-- The per-job loop of EmailQueue._process_batch. -/
def batchLoop (st : QState) (batch : List Nat) (out : Nat → Bool) : QState :=
  batch.foldl
    (fun s sid =>
      let r := send_single_email s sid (out sid)
      if r.1 then r.2 else handle_failure r.2 sid)
    st

/-- The except block of EmailQueue._process_batch: every job of the batch
list — whatever happened to it inside the loop — gets retry_count += 1 and
is requeued while under the ceiling. -/
def exceptLoop (st : QState) (batch : List Nat) : QState :=
  batch.foldl handle_failure st

/-- EmailQueue._process_batch: open one SMTP session (connOk false means
the connect/login raised before any send), run the per-job loop, then quit
(quitOk false means server.quit raised after the loop). Any exception
escaping the loop runs the except block over the whole batch. -/
def process_batch (st : QState) (batch : List Nat) (connOk : Bool)
    (out : Nat → Bool) (quitOk : Bool) : QState :=
  if connOk = false then exceptLoop st batch
  else
    let mid := batchLoop st batch out
    if quitOk then mid else exceptLoop mid batch

/-- The retry lifecycle of a single queued job, as driven by
send_qr_emails_batch: the worker repeatedly takes the job from the main
queue, processes the singleton batch over a healthy SMTP session, and the
monitor drains the failed queue back into the main queue; the run ends when
both queues are empty (terminal success or permanent drop). outcomes lists
the successive sendmail outcomes. -/
def runSingle (st : QState) (sid : Nat) : List Bool → QState
  | [] => st
  | ok :: rest =>
    let st1 := process_batch st [sid] true (fun _ => ok) true
    if st1.failed_queue.isEmpty then st1
    else runSingle { st1 with failed_queue := [] } sid rest

/-- Number of successful SMTP sends to a given student in a trace. -/
def countSends (tr : List Ev) (sid : Nat) : Nat :=
  (tr.filter (fun e =>
    match e with
    | .sendAttempt s true => s == sid
    | _ => false)).length

/-- Number of qr_sent_at writes for a given student in a trace. -/
def countRecords (tr : List Ev) (sid : Nat) : Nat :=
  (tr.filter (fun e =>
    match e with
    | .recordSent s => s == sid
    | _ => false)).length

/-- Fresh single-job queue state: one job object for student 1 with
retry_count 0 and the given ceiling; empty queues and store. -/
def initQ (m : Nat) : QState :=
  { retries := [(1, 0)], max_retries := m, failed_queue := [],
    qr_sent_at := [], sent_count := 0, failed_count := 0, trace := [],
    now := 10 }

/-- The trace left by k consecutive failed-and-requeued attempts for
student 1. -/
def failPattern (sid : Nat) : Nat → List Ev
  | 0 => []
  | k + 1 => [.sendAttempt sid false, .requeue sid] ++ failPattern sid k

end EmailQ

namespace CompanionQR

/-- One row of the companions table as written by
generate_companion_qr.py. -/
structure CompanionCred where
  student_id : Nat
  companion_number : Nat
  qr_data : String
  qr_generated_at : Nat
  access_status : String
  deriving DecidableEq, Repr

/-- INSERT ... ON CONFLICT (student_id, companion_number) DO UPDATE SET
qr_data, qr_generated_at, access_status = pending. -/
def upsertCompanion (t : List CompanionCred) (sid n : Nat) (tok : String)
    (now : Nat) : List CompanionCred :=
  if t.any (fun r => r.student_id == sid && r.companion_number == n) then
    t.map (fun r =>
      if r.student_id = sid ∧ r.companion_number = n then
        { r with qr_data := tok, qr_generated_at := now,
                 access_status := "pending" }
      else r)
  else
    t ++ [{ student_id := sid, companion_number := n, qr_data := tok,
            qr_generated_at := now, access_status := "pending" }]

/-- create_companion_qr_codes: upserts slot 1 then slot 2 with freshly
generated tokens (the uuid draws are passed in as tok1, tok2) and returns
the two tokens. -/
def create_companion_qr_codes (t : List CompanionCred) (sid : Nat)
    (tok1 tok2 : String) (now : Nat) : List CompanionCred × (String × String) :=
  (upsertCompanion (upsertCompanion t sid 1 tok1 now) sid 2 tok2 now,
   (tok1, tok2))

/-- regenerate_companion_qr_codes: DELETE FROM companions WHERE
student_id = sid (committed), then create_companion_qr_codes. -/
def regenerate_companion_qr_codes (t : List CompanionCred) (sid : Nat)
    (tok1 tok2 : String) (now : Nat) : List CompanionCred × (String × String) :=
  create_companion_qr_codes (t.filter (fun r => !(r.student_id == sid))) sid
    tok1 tok2 now

/-- The companion rows belonging to one student. -/
def rowsOf (t : List CompanionCred) (sid : Nat) : List CompanionCred :=
  t.filter (fun r => r.student_id == sid)

/-- Concrete companions table: student 4 already has two credentials (one
even checked in), student 5 has one. -/
def c8table : List CompanionCred :=
  [{ student_id := 4, companion_number := 1, qr_data := "companion_old1",
     qr_generated_at := 0, access_status := "checked_in" },
   { student_id := 4, companion_number := 2, qr_data := "companion_old2",
     qr_generated_at := 0, access_status := "pending" },
   { student_id := 5, companion_number := 1, qr_data := "companion_other",
     qr_generated_at := 0, access_status := "pending" }]

end CompanionQR

namespace MainApi

/-- A companion credential carrying an unrecognized status value. -/
def oddRow : CompanionRow :=
  { rid := 2, student_id := 9, companion_number := 2, qr_data := "companion_odd",
    access_status := "mystery", checked_in_at := none,
    first_name := "Luis", last_name := "Gómez" }

/-- Store holding just oddRow. -/
def oddDB : DB := { companions := [oddRow], students := [] }

end MainApi

namespace BatchQR

/-- 51 students, all eligible: with the default chunk size 50 this makes
two chunks. -/
def c5table : List StudentRec :=
  (List.range 51).map (fun i =>
    { sid := i, payment_confirmed := true, qr_data := none, qr_image_b64 := none })

/-- A deterministic stand-in for the per-unit issuer (uuid and clock folded
into the student id). -/
def c5gen : StudentRec → Option QRRec :=
  fun s => some { student_id := s.sid, qr_data := s.sid, qr_generated_at := 0 }

/-- A table with one student that is not eligible (payment not confirmed). -/
def c7table : List StudentRec :=
  [{ sid := 1, payment_confirmed := false, qr_data := none, qr_image_b64 := none }]

end BatchQR

namespace EmailQ

/-- Batch of the single job for student 1 processed over a session whose
quit raised after the (successful) send. -/
def demoAfterQuitRaise : QState :=
  process_batch (initQ 3) [1] true (fun _ => true) false

/-- The job re-enqueued by the except block is drained back and processed
again over a healthy session: the recipient is sent the message a second
time. -/
def demoResend : QState :=
  process_batch { demoAfterQuitRaise with failed_queue := [] } [1] true
    (fun _ => true) true

end EmailQ

-- THEOREMS

namespace MainApi

/-- C1: for every scan request carrying a (non-empty) token, api_verify
looks the token up first among companion credentials and then among
student credentials, and returns exactly one outcome determined by the
matched credential's current access status: no match yields the invalid
code error with the store unchanged; a checked_in credential yields the
duplicate warning with the store unchanged; a denied credential yields the
denied outcome with the store unchanged; a pending credential is set to
checked_in with the current timestamp and the welcome outcome carries the
bearer's display name and, for companions, the slot number (1 or 2). -/
theorem C1_verify_outcomes (db : DB) (now : Nat) (qr : String) (hqr : qr ≠ "")
    (hwf : ∀ c ∈ db.companions, c.companion_number = 1 ∨ c.companion_number = 2) :
    (findCompanion db qr = none → findStudent db qr = none →
      api_verify db now (some qr) = (.invalidCode invalidMsg, db))
    ∧ (∀ c, findCompanion db qr = some c →
        (c.access_status = "checked_in" →
          api_verify db now (some qr) =
            (.companionAlready c (companionAlreadyMsg c), db))
        ∧ (c.access_status = "denied" →
          api_verify db now (some qr) = (.companionDenied c companionDeniedMsg, db))
        ∧ (c.access_status = "pending" →
          api_verify db now (some qr) =
            (.companionWelcome
               { c with access_status := "checked_in", checked_in_at := some now }
               (companionWelcomeMsg c),
             { db with companions := checkinCompanions db.companions now c.rid })
          ∧ (c.companion_number = 1 ∨ c.companion_number = 2)))
    ∧ (∀ s, findCompanion db qr = none → findStudent db qr = some s →
        (s.access_status = "checked_in" →
          api_verify db now (some qr) = (.studentAlready s studentAlreadyMsg, db))
        ∧ (s.access_status = "denied" →
          api_verify db now (some qr) = (.studentDenied s studentDeniedMsg, db))
        ∧ (s.access_status = "pending" →
          api_verify db now (some qr) =
            (.studentWelcome
               { s with access_status := "checked_in", checked_in_at := some now }
               (studentWelcomeMsg s),
             { db with students := checkinStudents db.students now s.rid }))) := by
  refine ⟨?_, ?_, ?_⟩
  · intro h1 h2
    simp [api_verify, hqr, verifyToken, h1, h2]
  · intro c hc
    have hc' : db.companions.find? (fun x => x.qr_data == qr) = some c := hc
    have hmem : c ∈ db.companions := List.mem_of_find?_eq_some hc'
    refine ⟨?_, ?_, ?_⟩
    · intro hst
      simp [api_verify, hqr, verifyToken, hc, checkCompanion, hst]
    · intro hst
      simp [api_verify, hqr, verifyToken, hc, checkCompanion, hst]
    · intro hst
      refine ⟨?_, hwf c hmem⟩
      simp [api_verify, hqr, verifyToken, hc, checkCompanion, hst]
  · intro s h1 h2
    refine ⟨?_, ?_, ?_⟩
    · intro hst
      simp [api_verify, hqr, verifyToken, h1, h2, checkStudent, hst]
    · intro hst
      simp [api_verify, hqr, verifyToken, h1, h2, checkStudent, hst]
    · intro hst
      simp [api_verify, hqr, verifyToken, h1, h2, checkStudent, hst]

/-- Witness for C1: scanning the pending companion credential of raceDB
checks it in and returns the welcome outcome with the bearer's name and
slot. -/
theorem C1_verify_outcomes_witness :
    api_verify raceDB 5 (some "companion_tok") =
      (.companionWelcome
         { raceRow with access_status := "checked_in", checked_in_at := some 5 }
         (companionWelcomeMsg raceRow),
       { raceDB with companions := checkinCompanions raceDB.companions 5 raceRow.rid })
    ∧ (raceRow.companion_number = 1 ∨ raceRow.companion_number = 2) := by
  have h := C1_verify_outcomes raceDB 5 "companion_tok" (by decide)
    (by intro c hcmem
        simp only [raceDB] at hcmem
        simp only [List.mem_singleton] at hcmem
        subst hcmem
        left
        rfl)
  exact (h.2.1 raceRow (by rfl)).2.2 (by rfl)

/-- C10: api_verify treats any access status other than checked_in and
denied — not only pending — as checkable: a matched credential bearing an
unrecognized status value is transitioned to checked_in and receives the
welcome outcome, for companions and for students alike. -/
theorem C10_unknown_status_checkable (db : DB) (now : Nat) (qr : String)
    (hqr : qr ≠ "") :
    (∀ c, findCompanion db qr = some c →
      c.access_status ≠ "checked_in" → c.access_status ≠ "denied" →
      api_verify db now (some qr) =
        (.companionWelcome
           { c with access_status := "checked_in", checked_in_at := some now }
           (companionWelcomeMsg c),
         { db with companions := checkinCompanions db.companions now c.rid }))
    ∧ (∀ s, findCompanion db qr = none → findStudent db qr = some s →
      s.access_status ≠ "checked_in" → s.access_status ≠ "denied" →
      api_verify db now (some qr) =
        (.studentWelcome
           { s with access_status := "checked_in", checked_in_at := some now }
           (studentWelcomeMsg s),
         { db with students := checkinStudents db.students now s.rid })) := by
  constructor
  · intro c hc h1 h2
    simp [api_verify, hqr, verifyToken, hc, checkCompanion, h1, h2]
  · intro s hnone hs h1 h2
    simp [api_verify, hqr, verifyToken, hnone, hs, checkStudent, h1, h2]

/-- Witness for C10: a companion credential whose status is the
unrecognized string mystery is checked in and welcomed. -/
theorem C10_unknown_status_checkable_witness :
    api_verify oddDB 7 (some "companion_odd") =
      (.companionWelcome
         { oddRow with access_status := "checked_in", checked_in_at := some 7 }
         (companionWelcomeMsg oddRow),
       { oddDB with companions := checkinCompanions oddDB.companions 7 oddRow.rid }) := by
  have h := C10_unknown_status_checkable oddDB 7 "companion_odd" (by decide)
  exact h.1 oddRow (by rfl) (by decide) (by decide)

/-- C2: the read-then-conditionally-write sequence of api_verify is NOT
atomic with respect to other verifier invocations on the same token. The
source issues a plain SELECT and then a separate unconditional UPDATE;
under the read-read-write-write interleaving of two concurrent scans of
the same pending companion token both scans observe pending and both
receive the welcome outcome, where the claim requires at most one welcome
and a duplicate warning for the rest. -/
theorem C2_concurrent_double_checkin :
    raceRow.access_status = "pending"
    ∧ raceFinal.first =
        .finished (.companionWelcome
          { raceRow with access_status := "checked_in", checked_in_at := some 5 }
          (companionWelcomeMsg raceRow))
    ∧ raceFinal.second =
        .finished (.companionWelcome
          { raceRow with access_status := "checked_in", checked_in_at := some 5 }
          (companionWelcomeMsg raceRow))
    ∧ welcomeCount raceFinal = 2 := by
  refine ⟨rfl, ?_, ?_, ?_⟩ <;> rfl

end MainApi

namespace JobMgr

/-- C3: the job lifecycle invariant fails on the code. cancel_job does
return true and set CANCELLED exactly when the job exists and is still
PENDING, but a terminal status can be reassigned: start_job only schedules
the _execute_job task without changing the status, so a cancel arriving
between start and the task's first step is accepted (the job is CANCELLED),
after which the task runs anyway — _execute_job sets RUNNING without
re-checking the status — and the job ends COMPLETED. The trace below
evaluates the manager on exactly that event sequence. -/
theorem C3_cancelled_job_reassigned :
    (start_job (runJM [.create 0]) 0).1 = true
    ∧ (cancel_job (runJM [.create 0, .start 0]) 0).1 = true
    ∧ lookupJob (runJM [.create 0, .start 0, .cancel 0]) 0 = some .cancelled
    ∧ lookupJob (runJM [.create 0, .start 0, .cancel 0, .beginExec 0]) 0 =
        some .running
    ∧ lookupJob (runJM [.create 0, .start 0, .cancel 0, .beginExec 0,
        .endExec 0 true]) 0 = some .completed := by
  refine ⟨?_, ?_, ?_, ?_, ?_⟩ <;> rfl

end JobMgr

namespace FullProc

/-- C4 counterexample: with the sync step succeeding and the QR step
returning a failure, the full-process job terminates FAILED, the handler's
local results dict does hold the completed sync step's partial result, but
the Job's result payload is None — _execute_job assigns job.result only on
the success path, so the claim that the failed Job's result payload
carries the partial results of completed steps is false. -/
theorem C4_counterexample :
    (execute_full_process (.ret { success := true, error := none, data := 7 })
        (.ret { success := false, error := some "boom", data := 0 })
        (.ret { success := true, error := none, data := 3 })).status = .failed
    ∧ (execute_full_process (.ret { success := true, error := none, data := 7 })
        (.ret { success := false, error := some "boom", data := 0 })
        (.ret { success := true, error := none, data := 3 })).result = none
    ∧ (handle_full_process (.ret { success := true, error := none, data := 7 })
        (.ret { success := false, error := some "boom", data := 0 })
        (.ret { success := true, error := none, data := 3 })).2.1.syncRes =
        some { success := true, error := none, data := 7 } := by
  refine ⟨?_, ?_, ?_⟩ <;> rfl

/-- C4 (amended): the full_process handler runs Sync, then Generate, then
Send, in that order; a step that raises or reports failure prevents the
remaining steps from executing and the Job terminates FAILED with that
step's message as its error message; the partial results of the completed
steps are accumulated only in the handler-local results dict — the failed
Job's result payload is left unset (None); only a fully successful run
carries the results dict in the Job's result payload. -/
theorem C4_pipeline_amended (bS bG bE : StepBeh) :
    (∀ m, bS = .raised m →
      handle_full_process bS bG bE =
        ([.syncStep], { emptyResults with errMsg := some m }, .error m)
      ∧ execute_full_process bS bG bE =
        { status := .failed, result := none, error_message := some m })
    ∧ (∀ rs, bS = .ret rs → rs.success = false →
      handle_full_process bS bG bE =
        ([.syncStep],
         { emptyResults with
             syncRes := some rs
             errMsg := some ("Sync failed: " ++ errString rs.error) },
         .error ("Sync failed: " ++ errString rs.error))
      ∧ execute_full_process bS bG bE =
        { status := .failed, result := none,
          error_message := some ("Sync failed: " ++ errString rs.error) })
    ∧ (∀ rs m, bS = .ret rs → rs.success = true → bG = .raised m →
      handle_full_process bS bG bE =
        ([.syncStep, .generateStep],
         { emptyResults with syncRes := some rs, errMsg := some m }, .error m)
      ∧ execute_full_process bS bG bE =
        { status := .failed, result := none, error_message := some m })
    ∧ (∀ rs rq, bS = .ret rs → rs.success = true → bG = .ret rq →
        rq.success = false →
      handle_full_process bS bG bE =
        ([.syncStep, .generateStep],
         { emptyResults with
             syncRes := some rs
             qrRes := some rq
             errMsg := some ("QR generation failed: " ++ errString rq.error) },
         .error ("QR generation failed: " ++ errString rq.error))
      ∧ execute_full_process bS bG bE =
        { status := .failed, result := none,
          error_message :=
            some ("QR generation failed: " ++ errString rq.error) })
    ∧ (∀ rs rq m, bS = .ret rs → rs.success = true → bG = .ret rq →
        rq.success = true → bE = .raised m →
      handle_full_process bS bG bE =
        ([.syncStep, .generateStep, .sendStep],
         { emptyResults with
             syncRes := some rs
             qrRes := some rq
             errMsg := some m }, .error m)
      ∧ execute_full_process bS bG bE =
        { status := .failed, result := none, error_message := some m })
    ∧ (∀ rs rq re, bS = .ret rs → rs.success = true → bG = .ret rq →
        rq.success = true → bE = .ret re → re.success = false →
      handle_full_process bS bG bE =
        ([.syncStep, .generateStep, .sendStep],
         { emptyResults with
             syncRes := some rs
             qrRes := some rq
             emailRes := some re
             errMsg := some ("Email sending failed: " ++ errString re.error) },
         .error ("Email sending failed: " ++ errString re.error))
      ∧ execute_full_process bS bG bE =
        { status := .failed, result := none,
          error_message :=
            some ("Email sending failed: " ++ errString re.error) })
    ∧ (∀ rs rq re, bS = .ret rs → rs.success = true → bG = .ret rq →
        rq.success = true → bE = .ret re → re.success = true →
      handle_full_process bS bG bE =
        ([.syncStep, .generateStep, .sendStep],
         { syncRes := some rs
           qrRes := some rq
           emailRes := some re
           errMsg := none
           summaryOk := true },
         .ok { syncRes := some rs
               qrRes := some rq
               emailRes := some re
               errMsg := none
               summaryOk := true })
      ∧ execute_full_process bS bG bE =
        { status := .completed
          result := some { syncRes := some rs
                           qrRes := some rq
                           emailRes := some re
                           errMsg := none
                           summaryOk := true }
          error_message := none }) := by
  refine ⟨?_, ?_, ?_, ?_, ?_, ?_, ?_⟩
  · intro m hm
    subst hm
    exact ⟨rfl, rfl⟩
  · intro rs hs hf
    subst hs
    constructor <;> simp [handle_full_process, execute_full_process, hf,
      emptyResults]
  · intro rs m hs hok hg
    subst hs; subst hg
    constructor <;> simp [handle_full_process, execute_full_process, hok,
      emptyResults]
  · intro rs rq hs hok hg hqf
    subst hs; subst hg
    constructor <;> simp [handle_full_process, execute_full_process, hok, hqf,
      emptyResults]
  · intro rs rq m hs hok hg hqok he
    subst hs; subst hg; subst he
    constructor <;> simp [handle_full_process, execute_full_process, hok, hqok,
      emptyResults]
  · intro rs rq re hs hok hg hqok he hef
    subst hs; subst hg; subst he
    constructor <;> simp [handle_full_process, execute_full_process, hok, hqok,
      hef, emptyResults]
  · intro rs rq re hs hok hg hqok he heok
    subst hs; subst hg; subst he
    constructor <;> simp [handle_full_process, execute_full_process, hok, hqok,
      heok, emptyResults]

/-- Witness for the amended C4: sync succeeds, generation reports failure,
the send step never runs, the job is FAILED and carries no result payload
while the handler-local dict holds the sync partial result. -/
theorem C4_pipeline_amended_witness :
    handle_full_process (.ret { success := true, error := none, data := 7 })
        (.ret { success := false, error := some "x", data := 0 })
        (.ret { success := true, error := none, data := 3 }) =
      ([.syncStep, .generateStep],
       { emptyResults with
           syncRes := some { success := true, error := none, data := 7 }
           qrRes := some { success := false, error := some "x", data := 0 }
           errMsg := some ("QR generation failed: " ++ errString (some "x")) },
       .error ("QR generation failed: " ++ errString (some "x")))
    ∧ execute_full_process (.ret { success := true, error := none, data := 7 })
        (.ret { success := false, error := some "x", data := 0 })
        (.ret { success := true, error := none, data := 3 }) =
      { status := .failed, result := none,
        error_message := some ("QR generation failed: " ++
          errString (some "x")) } := by
  have h := C4_pipeline_amended
    (.ret { success := true, error := none, data := 7 })
    (.ret { success := false, error := some "x", data := 0 })
    (.ret { success := true, error := none, data := 3 })
  exact h.2.2.2.1 { success := true, error := none, data := 7 }
    { success := false, error := some "x", data := 0 } rfl rfl rfl rfl

end FullProc

namespace BatchQR

/-- The chunk loop covers the input exactly: generating chunk by chunk and
concatenating the surviving per-chunk results equals a single filterMap
over the whole input. -/
theorem chunksGo_map_filterMap (bs : Nat) (hbs : 1 ≤ bs)
    (g : StudentRec → Option QRRec) :
    ∀ fuel l, l.length ≤ fuel →
      ((chunksGo bs fuel l).map (fun c => c.filterMap g)).flatten =
        l.filterMap g := by
  intro fuel
  induction fuel with
  | zero =>
    intro l hl
    have hnil : l = [] := List.eq_nil_of_length_eq_zero (Nat.le_zero.mp hl)
    subst hnil
    rfl
  | succ n ih =>
    intro l hl
    match l with
    | [] => rfl
    | x :: xs =>
      have hd : ((x :: xs).drop bs).length ≤ n := by
        rw [List.length_drop]
        simp only [List.length_cons] at hl ⊢
        omega
      rw [chunksGo]
      simp only [List.map_cons, List.flatten_cons]
      rw [ih _ hd, ← List.filterMap_append, List.take_append_drop]

/-- Chunking partitions the input: flattening the chunks gives back the
input list. -/
theorem chunksGo_flatten (bs : Nat) (hbs : 1 ≤ bs) :
    ∀ fuel l, l.length ≤ fuel → (chunksGo bs fuel l).flatten = l := by
  intro fuel
  induction fuel with
  | zero =>
    intro l hl
    have hnil : l = [] := List.eq_nil_of_length_eq_zero (Nat.le_zero.mp hl)
    subst hnil
    rfl
  | succ n ih =>
    intro l hl
    match l with
    | [] => rfl
    | x :: xs =>
      have hd : ((x :: xs).drop bs).length ≤ n := by
        rw [List.length_drop]
        simp only [List.length_cons] at hl ⊢
        omega
      rw [chunksGo]
      simp only [List.flatten_cons]
      rw [ih _ hd, List.take_append_drop]

/-- Every chunk has at most the configured size. -/
theorem chunksGo_mem_length (bs : Nat) :
    ∀ fuel l ch, ch ∈ chunksGo bs fuel l → ch.length ≤ bs := by
  intro fuel
  induction fuel with
  | zero => intro l ch h; simp [chunksGo] at h
  | succ n ih =>
    intro l ch h
    match l with
    | [] => simp [chunksGo] at h
    | x :: xs =>
      rw [chunksGo] at h
      rcases List.mem_cons.mp h with h1 | h2
      · subst h1
        exact List.length_take_le ..
      · exact ih _ _ h2

/-- C5 (amended): batch generation partitions the eligible students into
chunks of at most the configured size, generates chunk by chunk, and
accumulates every chunk's surviving results into one list; the persistence
layer is then invoked once — at most one bulk write per run, issued after
all chunks, covering all results — rather than one bulk write per chunk. -/
theorem C5_single_bulk_write (bs : Nat) (genOne : StudentRec → Option QRRec)
    (table : List StudentRec) (hbs : 1 ≤ bs) :
    (chunksOf bs (table.filter eligible)).flatten = table.filter eligible
    ∧ (∀ ch ∈ chunksOf bs (table.filter eligible), ch.length ≤ bs)
    ∧ generate_batch_async bs genOne (table.filter eligible)
        = (table.filter eligible).filterMap genOne
    ∧ (generate_missing_qrs_batch bs genOne table).1.length ≤ 1
    ∧ (generate_batch_async bs genOne (table.filter eligible) ≠ [] →
        (generate_missing_qrs_batch bs genOne table).1 =
          [.bulkWrite ((table.filter eligible).filterMap genOne)]) := by
  have hbs0 : ¬ bs = 0 := by omega
  have hchunks : (chunksOf bs (table.filter eligible)).flatten
      = table.filter eligible := by
    rw [chunksOf, if_neg hbs0]
    exact chunksGo_flatten bs hbs _ _ (Nat.le_refl _)
  have hgen : generate_batch_async bs genOne (table.filter eligible)
      = (table.filter eligible).filterMap genOne := by
    rw [generate_batch_async, chunksOf, if_neg hbs0]
    exact chunksGo_map_filterMap bs hbs genOne _ _ (Nat.le_refl _)
  refine ⟨hchunks, ?_, hgen, ?_, ?_⟩
  · intro ch hch
    rw [chunksOf, if_neg hbs0] at hch
    exact chunksGo_mem_length bs _ _ ch hch
  · by_cases hniles : (table.filter eligible).isEmpty
    · simp [generate_missing_qrs_batch, hniles]
    · simp only [generate_missing_qrs_batch, hniles, Bool.false_eq_true,
        if_false]
      rw [bulk_update_database]
      by_cases hl : (generate_batch_async bs genOne
          (table.filter eligible)).isEmpty
      · simp [hl]
      · simp [hl]
  · intro hne
    have hniles : ¬ (table.filter eligible).isEmpty := by
      intro hemp
      apply hne
      rw [List.isEmpty_iff] at hemp
      rw [hgen, hemp]
      rfl
    simp only [generate_missing_qrs_batch, hniles, Bool.false_eq_true,
      if_false]
    rw [bulk_update_database, if_neg (by simpa [List.isEmpty_iff] using hne),
      hgen]

/-- Witness for the amended C5: 51 eligible students with chunk size 50
produce exactly one bulk write covering all 51 results. -/
theorem C5_single_bulk_write_witness :
    (generate_missing_qrs_batch 50 c5gen c5table).1 =
      [.bulkWrite ((c5table.filter eligible).filterMap c5gen)] := by
  have h := C5_single_bulk_write 50 c5gen c5table (by decide)
  exact h.2.2.2.2 (by decide)

/-- C5 counterexample: 51 eligible students with the default chunk size 50
make two chunks, yet the whole run performs exactly one bulk write — not
one bulk write per chunk as claimed. -/
theorem C5_counterexample_two_chunks_one_write :
    (chunksOf 50 (c5table.filter eligible)).length = 2
    ∧ (generate_missing_qrs_batch 50 c5gen c5table).1.length = 1
    ∧ ¬ ((generate_missing_qrs_batch 50 c5gen c5table).1.length = 2) := by
  refine ⟨by rfl, by rfl, by decide⟩

/-- C7 counterexample: running batch generation with no eligible students
returns a result dict without the total_students key (modelled as none),
so the claimed total_students == 0 does not hold of the returned value. -/
theorem C7_counterexample_total_students_missing :
    (generate_missing_qrs_batch 50 c5gen ([] : List StudentRec)).2.total_students
        = none
    ∧ ¬ ((generate_missing_qrs_batch 50 c5gen
        ([] : List StudentRec)).2.total_students = some 0) := by
  exact ⟨rfl, by decide⟩

/-- C7 (amended): running batch generation when no eligible students remain
is a no-op: it issues no store write and returns success with
generated_count 0; the returned dict carries no total_students key at all
(callers reading it with a 0 default observe 0). -/
theorem C7_noop_amended (bs : Nat) (genOne : StudentRec → Option QRRec)
    (table : List StudentRec) (h : table.filter eligible = []) :
    generate_missing_qrs_batch bs genOne table =
      ([], { success := true, generated_count := 0, total_students := none,
             error := none }) := by
  simp [generate_missing_qrs_batch, h]

/-- Witness for the amended C7: a table whose only student has no confirmed
payment yields no write and zero counts. -/
theorem C7_noop_amended_witness :
    generate_missing_qrs_batch 50 c5gen c7table =
      ([], { success := true, generated_count := 0, total_students := none,
             error := none }) :=
  C7_noop_amended 50 c5gen c7table (by rfl)

end BatchQR

namespace EmailQ

theorem lookupR_setR_self (l : List (Nat × Nat)) (x n : Nat)
    (h : hasR l x = true) : lookupR (setR l x n) x = n := by
  induction l with
  | nil => simp [hasR] at h
  | cons p rest ih =>
    by_cases hp : p.1 = x
    · simp [setR, lookupR, List.find?, hp]
    · have hr : hasR rest x = true := by
        simp only [hasR, List.any_cons, Bool.or_eq_true, beq_iff_eq] at h
        rcases h with h | h
        · exact absurd h hp
        · exact h
      have := ih hr
      simp only [setR, List.map_cons, if_neg hp] at *
      simp only [lookupR, List.find?] at *
      have hb : (p.1 == x) = false := by
        simp [hp]
      rw [hb] at *
      simpa [lookupR] using this

theorem lookupR_setR_ne (l : List (Nat × Nat)) (x n y : Nat) (h : y ≠ x) :
    lookupR (setR l x n) y = lookupR l y := by
  induction l with
  | nil => rfl
  | cons p rest ih =>
    by_cases hp : p.1 = x
    · have hb : (p.1 == y) = false := by
        simp [hp]
        exact fun hxy => absurd hxy.symm h
      simp only [setR, List.map_cons, if_pos hp, lookupR, List.find?, hb]
      simpa [lookupR, setR] using ih
    · by_cases hy : p.1 = y
      · simp [setR, lookupR, List.find?, hp, hy, h]
      · have hb : (p.1 == y) = false := by simp [hy]
        simp only [setR, List.map_cons, if_neg hp, lookupR, List.find?, hb]
        simpa [lookupR, setR] using ih

theorem hasR_setR (l : List (Nat × Nat)) (x n s : Nat) :
    hasR (setR l x n) s = hasR l s := by
  induction l with
  | nil => rfl
  | cons p rest ih =>
    by_cases hp : p.1 = x
    · simp only [setR, List.map_cons, if_pos hp, hasR, List.any_cons]
      simpa [hasR, setR] using congrArg (fun b => ((p.1 == s) || b)) ih
    · simp only [setR, List.map_cons, if_neg hp, hasR, List.any_cons]
      simpa [hasR, setR] using congrArg (fun b => ((p.1 == s) || b)) ih

theorem handle_failure_retries (st : QState) (x : Nat) :
    (handle_failure st x).retries = setR st.retries x (lookupR st.retries x + 1) := by
  simp only [handle_failure, setRetry, getRetry]
  split <;> rfl

theorem handle_failure_max (st : QState) (x : Nat) :
    (handle_failure st x).max_retries = st.max_retries := by
  simp only [handle_failure, setRetry, getRetry]
  split <;> rfl

theorem handle_failure_qr_sent_at (st : QState) (x : Nat) :
    (handle_failure st x).qr_sent_at = st.qr_sent_at := by
  simp only [handle_failure, setRetry, getRetry]
  split <;> rfl

theorem handle_failure_getRetry_self (st : QState) (x : Nat)
    (h : hasJob st x = true) :
    getRetry (handle_failure st x) x = getRetry st x + 1 := by
  rw [getRetry, handle_failure_retries, lookupR_setR_self _ _ _ h]
  rfl

theorem handle_failure_getRetry_ne (st : QState) (x s : Nat) (h : s ≠ x) :
    getRetry (handle_failure st x) s = getRetry st s := by
  rw [getRetry, handle_failure_retries, lookupR_setR_ne _ _ _ _ h]
  rfl

theorem handle_failure_hasJob (st : QState) (x s : Nat) :
    hasJob (handle_failure st x) s = hasJob st s := by
  rw [hasJob, handle_failure_retries, hasR_setR]
  rfl

theorem handle_failure_failed_mono (st : QState) (x s : Nat)
    (h : s ∈ st.failed_queue) : s ∈ (handle_failure st x).failed_queue := by
  simp only [handle_failure, setRetry, getRetry]
  split
  · simp only [List.mem_append]
    exact Or.inl h
  · exact h

theorem handle_failure_failed_self (st : QState) (x : Nat)
    (h : getRetry st x + 1 < st.max_retries) :
    x ∈ (handle_failure st x).failed_queue := by
  simp only [handle_failure, setRetry, getRetry] at *
  rw [if_pos h]
  simp

theorem setSentAt_retries (st : QState) (sid : Nat) :
    (setSentAt st sid).retries = st.retries := by
  rw [setSentAt]
  split <;> rfl

theorem setSentAt_max (st : QState) (sid : Nat) :
    (setSentAt st sid).max_retries = st.max_retries := by
  rw [setSentAt]
  split <;> rfl

theorem send_single_email_retries (st : QState) (sid : Nat) (ok : Bool) :
    ((send_single_email st sid ok).2).retries = st.retries := by
  cases ok
  · rfl
  · show (setSentAt { st with trace := st.trace ++ [Ev.sendAttempt sid true] }
        sid).retries = st.retries
    rw [setSentAt_retries]

theorem send_single_email_max (st : QState) (sid : Nat) (ok : Bool) :
    ((send_single_email st sid ok).2).max_retries = st.max_retries := by
  cases ok
  · rfl
  · show (setSentAt { st with trace := st.trace ++ [Ev.sendAttempt sid true] }
        sid).max_retries = st.max_retries
    rw [setSentAt_max]

theorem batchLoop_hasJob (b : List Nat) (out : Nat → Bool) :
    ∀ (st : QState) (s : Nat), hasJob (batchLoop st b out) s = hasJob st s := by
  induction b with
  | nil => intro st s; rfl
  | cons x rest ih =>
    intro st s
    simp only [batchLoop, List.foldl_cons]
    rw [show (List.foldl _ _ rest : QState) = batchLoop _ rest out from rfl]
    rw [ih]
    by_cases hok : (send_single_email st x (out x)).1 = true
    · rw [if_pos hok]
      rw [hasJob, send_single_email_retries]
      rfl
    · rw [if_neg hok]
      rw [handle_failure_hasJob, hasJob, send_single_email_retries]
      rfl

theorem batchLoop_max (b : List Nat) (out : Nat → Bool) :
    ∀ (st : QState), (batchLoop st b out).max_retries = st.max_retries := by
  induction b with
  | nil => intro st; rfl
  | cons x rest ih =>
    intro st
    simp only [batchLoop, List.foldl_cons]
    rw [show (List.foldl _ _ rest : QState) = batchLoop _ rest out from rfl]
    rw [ih]
    by_cases hok : (send_single_email st x (out x)).1 = true
    · rw [if_pos hok]
      exact send_single_email_max st x (out x)
    · rw [if_neg hok]
      rw [handle_failure_max]
      exact send_single_email_max st x (out x)

theorem exceptLoop_getRetry_notmem (b : List Nat) :
    ∀ (st : QState) (s : Nat), s ∉ b →
      getRetry (exceptLoop st b) s = getRetry st s := by
  induction b with
  | nil => intro st s _; rfl
  | cons x rest ih =>
    intro st s hs
    have hsx : s ≠ x := fun h => hs (h ▸ List.mem_cons_self x rest)
    have hsr : s ∉ rest := fun h => hs (List.mem_cons_of_mem x h)
    simp only [exceptLoop, List.foldl_cons]
    rw [show (List.foldl _ _ rest : QState) = exceptLoop _ rest from rfl]
    rw [ih _ _ hsr, handle_failure_getRetry_ne st x s hsx]

theorem exceptLoop_failed_mono (b : List Nat) :
    ∀ (st : QState) (s : Nat), s ∈ st.failed_queue →
      s ∈ (exceptLoop st b).failed_queue := by
  induction b with
  | nil => intro st s hs; exact hs
  | cons x rest ih =>
    intro st s hs
    simp only [exceptLoop, List.foldl_cons]
    rw [show (List.foldl _ _ rest : QState) = exceptLoop _ rest from rfl]
    exact ih _ _ (handle_failure_failed_mono st x s hs)

theorem exceptLoop_hasJob (b : List Nat) :
    ∀ (st : QState) (s : Nat), hasJob (exceptLoop st b) s = hasJob st s := by
  induction b with
  | nil => intro st s; rfl
  | cons x rest ih =>
    intro st s
    simp only [exceptLoop, List.foldl_cons]
    rw [show (List.foldl _ _ rest : QState) = exceptLoop _ rest from rfl]
    rw [ih, handle_failure_hasJob]

theorem exceptLoop_max (b : List Nat) :
    ∀ (st : QState), (exceptLoop st b).max_retries = st.max_retries := by
  induction b with
  | nil => intro st; rfl
  | cons x rest ih =>
    intro st
    simp only [exceptLoop, List.foldl_cons]
    rw [show (List.foldl _ _ rest : QState) = exceptLoop _ rest from rfl]
    rw [ih, handle_failure_max]

/-- The except block of _process_batch increments the counter of every job
of the batch exactly once and requeues each job that is still under the
ceiling. -/
theorem exceptLoop_spec (b : List Nat) :
    ∀ (st : QState), b.Nodup → (∀ s ∈ b, hasJob st s = true) →
      ∀ s ∈ b,
        getRetry (exceptLoop st b) s = getRetry st s + 1
        ∧ (getRetry st s + 1 < st.max_retries →
            s ∈ (exceptLoop st b).failed_queue) := by
  induction b with
  | nil => intro st _ _ s hs; exact absurd hs (List.not_mem_nil s)
  | cons x rest ih =>
    intro st hnd hall s hs
    have hndr : rest.Nodup := (List.nodup_cons.mp hnd).2
    have hxr : x ∉ rest := (List.nodup_cons.mp hnd).1
    have hallr : ∀ t ∈ rest, hasJob (handle_failure st x) t = true := by
      intro t ht
      rw [handle_failure_hasJob]
      exact hall t (List.mem_cons_of_mem x ht)
    have hstep : exceptLoop st (x :: rest) = exceptLoop (handle_failure st x) rest := by
      simp only [exceptLoop, List.foldl_cons]
    rcases List.mem_cons.mp hs with hsx | hsr
    · subst hsx
      constructor
      · rw [hstep, exceptLoop_getRetry_notmem rest _ _ hxr]
        exact handle_failure_getRetry_self st s (hall s hs)
      · intro hlt
        rw [hstep]
        exact exceptLoop_failed_mono rest _ _
          (handle_failure_failed_self st s hlt)
    · have hsx : s ≠ x := fun h => hxr (h ▸ hsr)
      have h := ih (handle_failure st x) hndr hallr s hsr
      rw [hstep]
      constructor
      · rw [h.1, handle_failure_getRetry_ne st x s hsx]
      · intro hlt
        apply h.2
        rw [handle_failure_getRetry_ne st x s hsx, handle_failure_max]
        exact hlt

/-- One healthy worker pass over the singleton batch, send succeeding:
the message goes out and qr_sent_at is written right after. -/
theorem process_one_ok (r m : Nat) (tr : List Ev) :
    process_batch ⟨[(1, r)], m, [], [], 0, 0, tr, 10⟩ [1] true
        (fun _ => true) true =
      ⟨[(1, r)], m, [], [(1, some 10)], 1, 0,
       tr ++ [.sendAttempt 1 true, .recordSent 1], 10⟩ := by
  simp [process_batch, batchLoop, send_single_email, setSentAt, hasR]

/-- One healthy worker pass, send failing while still under the ceiling:
the counter goes up and the job is pushed to the failed queue. -/
theorem process_one_fail_requeue (r m : Nat) (tr : List Ev) (h : r + 1 < m) :
    process_batch ⟨[(1, r)], m, [], [], 0, 0, tr, 10⟩ [1] true
        (fun _ => false) true =
      ⟨[(1, r + 1)], m, [1], [], 0, 0,
       tr ++ [.sendAttempt 1 false, .requeue 1], 10⟩ := by
  simp [process_batch, batchLoop, send_single_email, handle_failure, setRetry,
    getRetry, lookupR, setR, List.find?, h]

/-- One healthy worker pass, send failing at the ceiling: the job is
dropped and counted as permanently failed. -/
theorem process_one_fail_drop (r m : Nat) (tr : List Ev) (h : ¬ r + 1 < m) :
    process_batch ⟨[(1, r)], m, [], [], 0, 0, tr, 10⟩ [1] true
        (fun _ => false) true =
      ⟨[(1, r + 1)], m, [], [], 0, 1,
       tr ++ [.sendAttempt 1 false, .dropJob 1], 10⟩ := by
  simp [process_batch, batchLoop, send_single_email, handle_failure, setRetry,
    getRetry, lookupR, setR, List.find?, h]

/-- Retry lifecycle, failure-then-success shape: k failed sends (each
under the ceiling) followed by one successful send deliver exactly once,
with the qr_sent_at write issued after the successful send. -/
theorem runSingle_fail_then_ok (m : Nat) :
    ∀ (k r : Nat) (tr : List Ev), r + k + 1 ≤ m →
      runSingle ⟨[(1, r)], m, [], [], 0, 0, tr, 10⟩ 1
          (List.replicate k false ++ [true]) =
        ⟨[(1, r + k)], m, [], [(1, some 10)], 1, 0,
         tr ++ failPattern 1 k ++ [.sendAttempt 1 true, .recordSent 1], 10⟩ := by
  intro k
  induction k with
  | zero =>
    intro r tr h
    simp only [List.replicate_zero, List.nil_append]
    simp only [runSingle]
    rw [process_one_ok]
    rw [if_pos (by simp)]
    simp [failPattern]
  | succ n ih =>
    intro r tr h
    simp only [List.replicate_succ, List.cons_append]
    generalize hL : List.replicate n false ++ [true] = L
    simp only [runSingle]
    rw [process_one_fail_requeue r m tr (by omega)]
    rw [if_neg (by simp)]
    rw [show ({ (⟨[(1, r + 1)], m, [1], [], 0, 0,
        tr ++ [Ev.sendAttempt 1 false, Ev.requeue 1], 10⟩ : QState) with
        failed_queue := ([] : List Nat) } : QState) =
      ⟨[(1, r + 1)], m, [], [], 0, 0,
        tr ++ [Ev.sendAttempt 1 false, Ev.requeue 1], 10⟩ from rfl]
    rw [← hL]
    rw [ih (r + 1) (tr ++ [Ev.sendAttempt 1 false, Ev.requeue 1]) (by omega)]
    have harith : r + 1 + n = r + (n + 1) := by omega
    rw [harith]
    simp [failPattern, List.append_assoc]

/-- Retry lifecycle, all-failures shape: k+1 failed sends with the ceiling
reached at the last one leave the job dropped, counted permanently failed,
and never recorded as delivered. -/
theorem runSingle_all_fail (m : Nat) :
    ∀ (k r : Nat) (tr : List Ev), r + k + 1 = m →
      runSingle ⟨[(1, r)], m, [], [], 0, 0, tr, 10⟩ 1
          (List.replicate (k + 1) false) =
        ⟨[(1, m)], m, [], [], 0, 1,
         tr ++ failPattern 1 k ++ [.sendAttempt 1 false, .dropJob 1], 10⟩ := by
  intro k
  induction k with
  | zero =>
    intro r tr h
    simp only [List.replicate_succ, List.replicate_zero]
    simp only [runSingle]
    rw [process_one_fail_drop r m tr (by omega)]
    rw [if_pos (by simp)]
    have harith : r + 1 = m := by omega
    rw [harith]
    simp [failPattern]
  | succ n ih =>
    intro r tr h
    rw [List.replicate_succ]
    generalize hL : List.replicate (n + 1) false = L
    simp only [runSingle]
    rw [process_one_fail_requeue r m tr (by omega)]
    rw [if_neg (by simp)]
    rw [show ({ (⟨[(1, r + 1)], m, [1], [], 0, 0,
        tr ++ [Ev.sendAttempt 1 false, Ev.requeue 1], 10⟩ : QState) with
        failed_queue := ([] : List Nat) } : QState) =
      ⟨[(1, r + 1)], m, [], [], 0, 0,
        tr ++ [Ev.sendAttempt 1 false, Ev.requeue 1], 10⟩ from rfl]
    rw [← hL]
    rw [ih (r + 1) (tr ++ [Ev.sendAttempt 1 false, Ev.requeue 1]) (by omega)]
    simp [failPattern, List.append_assoc]

theorem countRecords_append (a b : List Ev) (sid : Nat) :
    countRecords (a ++ b) sid = countRecords a sid + countRecords b sid := by
  simp [countRecords, List.filter_append]

theorem countRecords_failPattern (sid k : Nat) :
    countRecords (failPattern sid k) sid = 0 := by
  induction k with
  | zero => rfl
  | succ n ih =>
    show countRecords ([.sendAttempt sid false, .requeue sid] ++
      failPattern sid n) sid = 0
    rw [countRecords_append, ih]
    rfl

/-- C6: a failed send increments the job's attempt counter; while the
counter is under the ceiling the job is pushed to the failed queue for
resubmission (one requeue event per failure in the trace), and once the
counter reaches the ceiling the job is dropped and counted in
failed_count, never marked delivered. A recipient whose send fails exactly
max_retries - 1 times and then succeeds has the delivery timestamp set
exactly once, and only after the successful send: the trace ends with the
successful send attempt immediately followed by the single qr_sent_at
write, and the failure paths never touch qr_sent_at. -/
theorem C6_delivery_retry_semantics (m : Nat) (hm : 1 ≤ m) :
    runSingle (initQ m) 1 (List.replicate (m - 1) false ++ [true]) =
      ⟨[(1, m - 1)], m, [], [(1, some 10)], 1, 0,
       failPattern 1 (m - 1) ++ [.sendAttempt 1 true, .recordSent 1], 10⟩
    ∧ countRecords
        ((runSingle (initQ m) 1 (List.replicate (m - 1) false ++ [true])).trace)
        1 = 1
    ∧ getSentAt (runSingle (initQ m) 1 (List.replicate (m - 1) false ++ [true]))
        1 = some 10
    ∧ runSingle (initQ m) 1 (List.replicate m false) =
      ⟨[(1, m)], m, [], [], 0, 1,
       failPattern 1 (m - 1) ++ [.sendAttempt 1 false, .dropJob 1], 10⟩
    ∧ getSentAt (runSingle (initQ m) 1 (List.replicate m false)) 1 = none
    ∧ countRecords ((runSingle (initQ m) 1 (List.replicate m false)).trace) 1 = 0
    ∧ (∀ (st : QState) (sid : Nat),
        (handle_failure st sid).qr_sent_at = st.qr_sent_at)
    ∧ (∀ (st : QState) (sid : Nat),
        ((send_single_email st sid false).2).qr_sent_at = st.qr_sent_at) := by
  obtain ⟨k, rfl⟩ : ∃ k, m = k + 1 := ⟨m - 1, by omega⟩
  have hk : k + 1 - 1 = k := by omega
  have h1 : runSingle (initQ (k + 1)) 1 (List.replicate k false ++ [true]) =
      ⟨[(1, k)], k + 1, [], [(1, some 10)], 1, 0,
       failPattern 1 k ++ [.sendAttempt 1 true, .recordSent 1], 10⟩ := by
    have h := runSingle_fail_then_ok (k + 1) k 0 [] (by omega)
    simpa [initQ] using h
  have h4 : runSingle (initQ (k + 1)) 1 (List.replicate (k + 1) false) =
      ⟨[(1, k + 1)], k + 1, [], [], 0, 1,
       failPattern 1 k ++ [.sendAttempt 1 false, .dropJob 1], 10⟩ := by
    have h := runSingle_all_fail (k + 1) k 0 [] (by omega)
    simpa [initQ] using h
  refine ⟨?_, ?_, ?_, ?_, ?_, ?_, ?_, ?_⟩
  · rw [hk]
    exact h1
  · rw [hk, h1]
    show countRecords (failPattern 1 k ++ [.sendAttempt 1 true, .recordSent 1]) 1 = 1
    rw [countRecords_append, countRecords_failPattern]
    rfl
  · rw [hk, h1]
    rfl
  · rw [hk]
    exact h4
  · rw [h4]
    rfl
  · rw [h4]
    show countRecords (failPattern 1 k ++ [.sendAttempt 1 false, .dropJob 1]) 1 = 0
    rw [countRecords_append, countRecords_failPattern]
    rfl
  · exact handle_failure_qr_sent_at
  · intro st sid
    rfl

/-- Witness for C6 at the default ceiling 3: two failures then a success
deliver exactly once with the write after the send; three failures never
deliver. -/
theorem C6_delivery_retry_semantics_witness :
    runSingle (initQ 3) 1 [false, false, true] =
      ⟨[(1, 2)], 3, [], [(1, some 10)], 1, 0,
       [.sendAttempt 1 false, .requeue 1, .sendAttempt 1 false, .requeue 1,
        .sendAttempt 1 true, .recordSent 1], 10⟩
    ∧ getSentAt (runSingle (initQ 3) 1 [false, false, false]) 1 = none := by
  have h := C6_delivery_retry_semantics 3 (by decide)
  exact ⟨h.1, h.2.2.2.2.1⟩

/-- C9: when an exception escapes the per-job send loop of _process_batch
(modelled here as server.quit raising after the loop), every job of the
batch — including jobs whose email was already sent and recorded, and jobs
already requeued inside the loop — has its attempt counter incremented
once more and is re-enqueued to the failed queue if still under the
ceiling. Concretely, a job delivered in a batch whose quit raised is
requeued and, when the failed queue is drained and processed again, the
same recipient is sent the message a second time. -/
theorem C9_batch_exception_requeues_all (st : QState) (batch : List Nat)
    (out : Nat → Bool) (hnd : batch.Nodup)
    (hall : ∀ s ∈ batch, hasJob st s = true) :
    (∀ s ∈ batch,
      getRetry (process_batch st batch true out false) s
        = getRetry (batchLoop st batch out) s + 1
      ∧ (getRetry (batchLoop st batch out) s + 1 < st.max_retries →
          s ∈ (process_batch st batch true out false).failed_queue))
    ∧ 1 ∈ demoAfterQuitRaise.failed_queue
    ∧ getSentAt demoAfterQuitRaise 1 = some 10
    ∧ countSends demoAfterQuitRaise.trace 1 = 1
    ∧ countSends demoResend.trace 1 = 2
    ∧ countRecords demoResend.trace 1 = 2 := by
  constructor
  · have hpb : process_batch st batch true out false
        = exceptLoop (batchLoop st batch out) batch := by
      simp [process_batch]
    intro s hs
    rw [hpb]
    have hall2 : ∀ t ∈ batch, hasJob (batchLoop st batch out) t = true := by
      intro t ht
      rw [batchLoop_hasJob]
      exact hall t ht
    have h := exceptLoop_spec batch (batchLoop st batch out) hnd hall2 s hs
    refine ⟨h.1, fun hlt => h.2 ?_⟩
    rw [batchLoop_max]
    exact hlt
  · refine ⟨?_, ?_, ?_, ?_, ?_⟩ <;> decide

/-- Witness for C9: a singleton batch whose send fails and whose session
teardown also raises gets a second counter increment and lands in the
failed queue. -/
theorem C9_batch_exception_requeues_all_witness :
    getRetry (process_batch (initQ 3) [1] true (fun _ => false) false) 1
      = getRetry (batchLoop (initQ 3) [1] (fun _ => false)) 1 + 1
    ∧ 1 ∈ (process_batch (initQ 3) [1] true (fun _ => false) false).failed_queue := by
  have h := C9_batch_exception_requeues_all (initQ 3) [1] (fun _ => false)
    (by decide) (by decide)
  exact ⟨(h.1 1 (by decide)).1, (h.1 1 (by decide)).2 (by decide)⟩

end EmailQ

namespace CompanionQR

/-- After the DELETE, no row of the student is left, so neither upsert can
hit its conflict branch. -/
theorem filter_out_any (t : List CompanionCred) (sid n : Nat) :
    ((t.filter (fun r => !(r.student_id == sid))).any
      (fun r => r.student_id == sid && r.companion_number == n)) = false := by
  rw [List.any_eq_false]
  intro r hr
  rw [List.mem_filter] at hr
  simp only [Bool.and_eq_true, beq_iff_eq]
  intro hcon
  rw [hcon.1] at hr
  simp at hr

theorem rowsOf_filter_out (t : List CompanionCred) (sid : Nat) :
    rowsOf (t.filter (fun r => !(r.student_id == sid))) sid = [] := by
  rw [rowsOf, List.filter_eq_nil_iff]
  intro r hr
  rw [List.mem_filter] at hr
  intro hcon
  rw [beq_iff_eq] at hcon
  rw [hcon] at hr
  simp at hr

/-- C8: regenerating a student's companion credentials deletes whatever
companion rows the student had and inserts exactly two fresh ones — slots
1 and 2, no slot duplicated — both with freshly generated tokens different
from every previous token of that student (uuid freshness is the
hypothesis) and both with access status reset to pending; rows of other
students are untouched and the two new tokens are returned. -/
theorem C8_regenerate_exactly_two (t : List CompanionCred) (sid : Nat)
    (tok1 tok2 : String) (now : Nat)
    (hfresh : ∀ r ∈ t, r.student_id = sid →
      r.qr_data ≠ tok1 ∧ r.qr_data ≠ tok2) :
    rowsOf (regenerate_companion_qr_codes t sid tok1 tok2 now).1 sid =
      [{ student_id := sid, companion_number := 1, qr_data := tok1,
         qr_generated_at := now, access_status := "pending" },
       { student_id := sid, companion_number := 2, qr_data := tok2,
         qr_generated_at := now, access_status := "pending" }]
    ∧ (rowsOf (regenerate_companion_qr_codes t sid tok1 tok2 now).1 sid).length = 2
    ∧ (∀ r ∈ rowsOf (regenerate_companion_qr_codes t sid tok1 tok2 now).1 sid,
        r.access_status = "pending"
        ∧ (r.companion_number = 1 ∨ r.companion_number = 2)
        ∧ ∀ old ∈ t, old.student_id = sid → r.qr_data ≠ old.qr_data)
    ∧ (∀ s2, ¬ s2 = sid →
        rowsOf (regenerate_companion_qr_codes t sid tok1 tok2 now).1 s2 =
          rowsOf t s2)
    ∧ (regenerate_companion_qr_codes t sid tok1 tok2 now).2 = (tok1, tok2) := by
  have h1 : upsertCompanion (t.filter (fun r => !(r.student_id == sid)))
      sid 1 tok1 now
      = t.filter (fun r => !(r.student_id == sid)) ++
        [{ student_id := sid, companion_number := 1, qr_data := tok1,
           qr_generated_at := now, access_status := "pending" }] := by
    rw [upsertCompanion, if_neg (by rw [filter_out_any]; simp)]
  have h2 : upsertCompanion
      (t.filter (fun r => !(r.student_id == sid)) ++
        [{ student_id := sid, companion_number := 1, qr_data := tok1,
           qr_generated_at := now, access_status := "pending" }])
      sid 2 tok2 now
      = (t.filter (fun r => !(r.student_id == sid)) ++
          [{ student_id := sid, companion_number := 1, qr_data := tok1,
             qr_generated_at := now, access_status := "pending" }]) ++
        [{ student_id := sid, companion_number := 2, qr_data := tok2,
           qr_generated_at := now, access_status := "pending" }] := by
    rw [upsertCompanion,
      if_neg (by rw [List.any_append, filter_out_any]; simp)]
  have hmain : (regenerate_companion_qr_codes t sid tok1 tok2 now).1
      = (t.filter (fun r => !(r.student_id == sid)) ++
          [{ student_id := sid, companion_number := 1, qr_data := tok1,
             qr_generated_at := now, access_status := "pending" }]) ++
        [{ student_id := sid, companion_number := 2, qr_data := tok2,
           qr_generated_at := now, access_status := "pending" }] := by
    show upsertCompanion (upsertCompanion
      (t.filter (fun r => !(r.student_id == sid))) sid 1 tok1 now)
      sid 2 tok2 now = _
    rw [h1, h2]
  have hrows : rowsOf (regenerate_companion_qr_codes t sid tok1 tok2 now).1 sid =
      [{ student_id := sid, companion_number := 1, qr_data := tok1,
         qr_generated_at := now, access_status := "pending" },
       { student_id := sid, companion_number := 2, qr_data := tok2,
         qr_generated_at := now, access_status := "pending" }] := by
    rw [hmain, rowsOf, List.filter_append, List.filter_append]
    rw [show List.filter (fun r => r.student_id == sid)
        (t.filter (fun r => !(r.student_id == sid)))
      = rowsOf (t.filter (fun r => !(r.student_id == sid))) sid from rfl]
    rw [rowsOf_filter_out]
    simp
  refine ⟨hrows, ?_, ?_, ?_, ?_⟩
  · rw [hrows]
    rfl
  · intro r hr
    rw [hrows] at hr
    rcases List.mem_cons.mp hr with h | h
    · subst h
      refine ⟨rfl, Or.inl rfl, ?_⟩
      intro old hold holdsid
      exact fun he => ((hfresh old hold holdsid).1 he.symm).elim
    · rw [List.mem_singleton] at h
      subst h
      refine ⟨rfl, Or.inr rfl, ?_⟩
      intro old hold holdsid
      exact fun he => ((hfresh old hold holdsid).2 he.symm).elim
  · intro s2 hs2
    have hb : (sid == s2) = false := by
      rw [beq_eq_false_iff_ne]
      exact fun h => hs2 h.symm
    rw [hmain, rowsOf, List.filter_append, List.filter_append]
    have hone : ∀ (n : Nat) (tok : String),
        List.filter (fun r => r.student_id == s2)
          [({ student_id := sid, companion_number := n, qr_data := tok,
              qr_generated_at := now, access_status := "pending" } :
            CompanionCred)] = [] := by
      intro n tok
      simp [List.filter, hb]
    rw [hone 1 tok1, hone 2 tok2, List.append_nil, List.append_nil]
    rw [List.filter_filter]
    rw [rowsOf]
    apply List.filter_congr
    intro a _
    by_cases ha : a.student_id = s2
    · have hb2 : (a.student_id == sid) = false := by
        rw [beq_eq_false_iff_ne, ha]
        exact hs2
      simp [ha, hb2]
      exact hs2
    · have hb3 : (a.student_id == s2) = false := by
        rw [beq_eq_false_iff_ne]
        exact ha
      simp [hb3]
  · rfl

/-- Witness for C8: regenerating student 4 of c8table with two fresh
tokens leaves exactly the two new pending rows for student 4. -/
theorem C8_regenerate_exactly_two_witness :
    rowsOf (regenerate_companion_qr_codes c8table 4 "companion_new1"
        "companion_new2" 9).1 4 =
      [{ student_id := 4, companion_number := 1, qr_data := "companion_new1",
         qr_generated_at := 9, access_status := "pending" },
       { student_id := 4, companion_number := 2, qr_data := "companion_new2",
         qr_generated_at := 9, access_status := "pending" }] := by
  have h := C8_regenerate_exactly_two c8table 4 "companion_new1"
    "companion_new2" 9 (by decide)
  exact h.1

end CompanionQR
